import Mathlib

/-!
Verification of the yearly TikTok metrics simulator in `Tiktok.py`.

The simulator is embedded shallowly over ℚ.  A crucial feature of the
source is that every helper stage re-derives its upstream values by
calling the upstream simulator on a single-element date list, so the
`enumerate` index inside that re-derivation is always `0`.  The
embedding keeps this faithfully: each `simulate_*` function below is the
loop body of the corresponding `_simulate_*` method of
`TikTokCountryAnalyzer`, and inner re-derivations are performed with
year index `0`.
-/

namespace Tiktok

/-- Immutable per-country configuration record: the dictionary values of
`_get_country_config` in `Tiktok.py`. -/
structure Config where
  population_base : ℚ
  tiktok_users_base : ℚ
  market_type : String
  specialties : List String
deriving DecidableEq, Repr

/-- One row of the generated yearly table, with the columns built by
`generate_tiktok_data` in `Tiktok.py`. -/
structure YearRecord where
  year : ℕ
  population : ℚ
  tiktok_users : ℚ
  active_users : ℚ
  time_spent_per_user : ℚ
  videos_uploaded : ℚ
  likes_count : ℚ
  shares_count : ℚ
  comments_count : ℚ
  ad_revenue : ℚ
  creator_earnings : ℚ
  e_commerce_revenue : ℚ
  engagement_rate : ℚ
  user_growth_rate : ℚ
  virality_score : ℚ
  users_under_25 : ℚ
  users_25_34 : ℚ
  users_over_35 : ℚ
deriving DecidableEq, Repr, Inhabited

/-- The "default" entry of the configuration dictionary. -/
def default_config : Config :=
  { population_base := 50000000
    tiktok_users_base := 10000000
    market_type := "emerging"
    specialties := ["entertainment", "music", "comedy"] }

/-- The configuration dictionary of `_get_country_config`, as an
association list in source order. -/
def configs : List (String × Config) :=
  [ ("United States",
     { population_base := 331000000, tiktok_users_base := 100000000,
       market_type := "mature",
       specialties := ["entertainment", "influencers", "business", "ads", "music"] }),
    ("China",
     { population_base := 1400000000, tiktok_users_base := 600000000,
       market_type := "domestic",
       specialties := ["e-commerce", "live-streaming", "education", "government"] }),
    ("India",
     { population_base := 1380000000, tiktok_users_base := 200000000,
       market_type := "emerging",
       specialties := ["entertainment", "music", "dance", "regional_content"] }),
    ("Brazil",
     { population_base := 213000000, tiktok_users_base := 82000000,
       market_type := "growing",
       specialties := ["music", "dance", "comedy", "social_causes"] }),
    ("Indonesia",
     { population_base := 274000000, tiktok_users_base := 99000000,
       market_type := "growing",
       specialties := ["islamic_content", "comedy", "local_business", "education"] }),
    ("Russia",
     { population_base := 144000000, tiktok_users_base := 50000000,
       market_type := "regulated",
       specialties := ["politics", "comedy", "challenges", "music"] }),
    ("Mexico",
     { population_base := 128000000, tiktok_users_base := 57500000,
       market_type := "growing",
       specialties := ["music", "comedy", "beauty", "family_content"] }),
    ("Vietnam",
     { population_base := 97300000, tiktok_users_base := 50000000,
       market_type := "booming",
       specialties := ["music", "dance", "comedy", "educational"] }),
    ("Philippines",
     { population_base := 110000000, tiktok_users_base := 43500000,
       market_type := "booming",
       specialties := ["dance", "comedy", "family_content", "challenges"] }),
    ("Thailand",
     { population_base := 70000000, tiktok_users_base := 40000000,
       market_type := "mature",
       specialties := ["beauty", "comedy", "food", "music"] }),
    ("United Kingdom",
     { population_base := 67000000, tiktok_users_base := 23000000,
       market_type := "mature",
       specialties := ["comedy", "politics", "business", "education"] }),
    ("France",
     { population_base := 68000000, tiktok_users_base := 24000000,
       market_type := "mature",
       specialties := ["humor", "politics", "culture", "fashion"] }),
    ("Germany",
     { population_base := 83000000, tiktok_users_base := 22000000,
       market_type := "growing",
       specialties := ["comedy", "education", "politics", "business"] }),
    ("Japan",
     { population_base := 126000000, tiktok_users_base := 17000000,
       market_type := "emerging",
       specialties := ["anime", "music", "beauty", "comedy"] }),
    ("South Korea",
     { population_base := 52000000, tiktok_users_base := 15000000,
       market_type := "growing",
       specialties := ["k-pop", "beauty", "fashion", "dance"] }),
    ("default", default_config) ]

/-- The lookup `configs.get(self.country, configs["default"])` of
`_get_country_config`: a total function with a default fallback. -/
def get_country_config (country : String) : Config :=
  match configs.lookup country with
  | some c => c
  | none => default_config

/-- Loop body of `_simulate_population` at year index `i`. -/
def simulate_population (cfg : Config) (i : ℕ) : ℚ :=
  let growth_rate : ℚ :=
    if cfg.market_type = "mature" then 4/1000
    else if cfg.market_type = "booming" then 12/1000
    else 8/1000
  cfg.population_base * (1 + growth_rate * i)

/-- The market-type ceiling fraction of `_simulate_tiktok_users`:
`0.65` unless the market is "domestic", in which case `0.45`. -/
def max_percentage (cfg : Config) : ℚ :=
  if cfg.market_type ≠ "domestic" then 65/100 else 45/100

/-- The population ceiling `population_base * max_percentage` of
`_simulate_tiktok_users`. -/
def max_users (cfg : Config) : ℚ :=
  cfg.population_base * max_percentage cfg

/-- Loop body of `_simulate_tiktok_users` at year index `i` and calendar
year `year`. -/
def simulate_tiktok_users (cfg : Config) (i : ℕ) (year : ℕ) : ℚ :=
  let growth_rate : ℚ :=
    if cfg.market_type = "mature" then
      if year < 2020 then 35/100 else 8/100
    else if cfg.market_type = "booming" then 25/100
    else if cfg.market_type = "emerging" then 40/100
    else 15/100
  let growth := 1 + growth_rate * i
  min (cfg.tiktok_users_base * growth) (max_users cfg)

/-- The activity rate of `_simulate_active_users`: `0.75` for mature
markets, `0.85` for booming ones, otherwise `0.70`. -/
def active_rate (cfg : Config) : ℚ :=
  if cfg.market_type = "mature" then 75/100
  else if cfg.market_type = "booming" then 85/100
  else 70/100

/-- Loop body of `_simulate_active_users`.  The source calls
`self._simulate_tiktok_users([date])[0]`, a single-date re-derivation,
so the inner year index is `0`. -/
def simulate_active_users (cfg : Config) (year : ℕ) : ℚ :=
  simulate_tiktok_users cfg 0 year * active_rate cfg

/-- Loop body of `_simulate_time_spent`. -/
def simulate_time_spent (cfg : Config) (year : ℕ) : ℚ :=
  let base_time : ℚ := 45
  let time :=
    if year < 2018 then base_time * (7/10)
    else if year < 2020 then base_time * (9/10)
    else if year < 2022 then base_time * (11/10)
    else base_time * (12/10)
  if cfg.market_type = "booming" then time * (115/100)
  else if cfg.market_type = "emerging" then time * (125/100)
  else time

/-- Loop body of `_simulate_videos_uploaded`, with the single-date
re-derivation of active users. -/
def simulate_videos_uploaded (cfg : Config) (year : ℕ) : ℚ :=
  let videos_per_user : ℚ :=
    if year < 2018 then 8/10
    else if year < 2020 then 12/10
    else if year < 2022 then 15/10
    else 18/10
  let videos_per_user :=
    if cfg.market_type = "booming" then videos_per_user * (13/10)
    else if "comedy" ∈ cfg.specialties then videos_per_user * (12/10)
    else videos_per_user
  simulate_active_users cfg year * videos_per_user * 365

/-- Loop body of `_simulate_likes_count`, with the single-date
re-derivation of videos uploaded. -/
def simulate_likes_count (cfg : Config) (year : ℕ) : ℚ :=
  let likes_per_video : ℚ :=
    if year < 2018 then 150
    else if year < 2020 then 250
    else if year < 2022 then 350
    else 400
  simulate_videos_uploaded cfg year * likes_per_video

/-- Loop body of `_simulate_shares_count`: `likes * 0.08`, with the
single-date re-derivation of likes. -/
def simulate_shares_count (cfg : Config) (year : ℕ) : ℚ :=
  simulate_likes_count cfg year * (8/100)

/-- Loop body of `_simulate_comments_count`: `likes * 0.05`, with the
single-date re-derivation of likes. -/
def simulate_comments_count (cfg : Config) (year : ℕ) : ℚ :=
  simulate_likes_count cfg year * (5/100)

/-- Loop body of `_simulate_ad_revenue`, with the single-date
re-derivation of active users. -/
def simulate_ad_revenue (cfg : Config) (year : ℕ) : ℚ :=
  let revenue_per_user : ℚ :=
    if year < 2018 then 25/10
    else if year < 2020 then 5
    else if year < 2022 then 8
    else 12
  let revenue_per_user :=
    if cfg.market_type = "mature" then revenue_per_user * (15/10)
    else if cfg.market_type = "regulated" then revenue_per_user * (7/10)
    else revenue_per_user
  simulate_active_users cfg year * revenue_per_user

/-- Loop body of `_simulate_creator_earnings`: `ad_revenue * 0.25` with
the single-date re-derivation of ad revenue. -/
def simulate_creator_earnings (cfg : Config) (year : ℕ) : ℚ :=
  simulate_ad_revenue cfg year * (25/100)

/-- Loop body of `_simulate_ecommerce_revenue`, with the single-date
re-derivation of ad revenue. -/
def simulate_ecommerce_revenue (cfg : Config) (year : ℕ) : ℚ :=
  let ecommerce_revenue : ℚ :=
    if year < 2019 then 0
    else if year < 2021 then simulate_ad_revenue cfg year * (1/10)
    else if year < 2023 then simulate_ad_revenue cfg year * (2/10)
    else simulate_ad_revenue cfg year * (3/10)
  if "e-commerce" ∈ cfg.specialties then ecommerce_revenue * (15/10)
  else ecommerce_revenue

/-- Loop body of `_simulate_engagement_rate`. -/
def simulate_engagement_rate (cfg : Config) (year : ℕ) : ℚ :=
  let rate : ℚ :=
    if year < 2018 then 12/100
    else if year < 2020 then 16/100
    else if year < 2022 then 18/100
    else 20/100
  if cfg.market_type = "booming" then rate * (115/100) else rate

/-- The division step of `_simulate_user_growth_rate`:
`(cur - prev) / prev if prev > 0 else 0`. -/
def simulate_user_growth_step (prev cur : ℚ) : ℚ :=
  if prev > 0 then (cur - prev) / prev else 0

/-- Loop body of `_simulate_virality_score`. -/
def simulate_virality_score (cfg : Config) (year : ℕ) : ℚ :=
  let score : ℚ :=
    if year < 2018 then 12/10
    else if year < 2020 then 15/10
    else if year < 2022 then 18/10
    else 2
  if "music" ∈ cfg.specialties ∨ "dance" ∈ cfg.specialties then score * (12/10)
  else score

/-- The youth ratio of `_simulate_young_users`: `0.45` for mature
markets, otherwise `0.60`. -/
def young_ratio (cfg : Config) : ℚ :=
  if cfg.market_type = "mature" then 45/100 else 60/100

/-- Loop body of `_simulate_young_users`, with the single-date
re-derivation of TikTok users. -/
def simulate_young_users (cfg : Config) (year : ℕ) : ℚ :=
  simulate_tiktok_users cfg 0 year * young_ratio cfg

/-- Loop body of `_simulate_adult_users` (fixed ratio `0.30`), with the
single-date re-derivation of TikTok users. -/
def simulate_adult_users (cfg : Config) (year : ℕ) : ℚ :=
  simulate_tiktok_users cfg 0 year * (30/100)

/-- Loop body of `_simulate_older_users`: ratio
`1 - young_ratio - 0.30`, with the single-date re-derivation of TikTok
users. -/
def simulate_older_users (cfg : Config) (year : ℕ) : ℚ :=
  simulate_tiktok_users cfg 0 year * (1 - young_ratio cfg - 30/100)

/-- One row of the table before the trend-adjustment pass, at year index
`i` (calendar year `2016 + i`), with `g` the already-computed user
growth rate for that row. -/
def mk_record (cfg : Config) (i : ℕ) (g : ℚ) : YearRecord :=
  let year := 2016 + i
  { year := year
    population := simulate_population cfg i
    tiktok_users := simulate_tiktok_users cfg i year
    active_users := simulate_active_users cfg year
    time_spent_per_user := simulate_time_spent cfg year
    videos_uploaded := simulate_videos_uploaded cfg year
    likes_count := simulate_likes_count cfg year
    shares_count := simulate_shares_count cfg year
    comments_count := simulate_comments_count cfg year
    ad_revenue := simulate_ad_revenue cfg year
    creator_earnings := simulate_creator_earnings cfg year
    e_commerce_revenue := simulate_ecommerce_revenue cfg year
    engagement_rate := simulate_engagement_rate cfg year
    user_growth_rate := g
    virality_score := simulate_virality_score cfg year
    users_under_25 := simulate_young_users cfg year
    users_25_34 := simulate_adult_users cfg year
    users_over_35 := simulate_older_users cfg year }

/-- Build the rows for the given year indices, threading the carried
previous-year user count of `_simulate_user_growth_rate` (the current
value it compares against is the single-date re-derivation at year
index `0`). -/
def build_rows (cfg : Config) : ℚ → List ℕ → List YearRecord
  | _, [] => []
  | prev, i :: is =>
    let cur := simulate_tiktok_users cfg 0 (2016 + i)
    mk_record cfg i (simulate_user_growth_step prev cur) :: build_rows cfg cur is

/-- The table assembled by `generate_tiktok_data` before
`_add_country_trends` runs: years 2016 to 2025, growth-rate state
seeded with `tiktok_users_base`. -/
def pre_trend_table (cfg : Config) : List YearRecord :=
  build_rows cfg cfg.tiktok_users_base (List.range 10)

/-- The per-row trend-adjustment pass `_add_country_trends`, applied as
sequential in-place multiplications in source order. -/
def add_country_trends (cfg : Config) (r : YearRecord) : YearRecord :=
  let r1 := if 2016 ≤ r.year ∧ r.year ≤ 2018 then
      { r with user_growth_rate := r.user_growth_rate * (12/10) } else r
  let r2 := if 2019 ≤ r1.year ∧ r1.year ≤ 2020 then
      { r1 with ad_revenue := r1.ad_revenue * (13/10) } else r1
  let r3 := if 2020 ≤ r2.year ∧ r2.year ≤ 2021 then
      { r2 with time_spent_per_user := r2.time_spent_per_user * (125/100),
                active_users := r2.active_users * (115/100) } else r2
  let r4 := if (2021 ≤ r3.year ∧ r3.year ≤ 2023) ∧ "e-commerce" ∈ cfg.specialties then
      { r3 with e_commerce_revenue := r3.e_commerce_revenue * (14/10) } else r3
  if 2023 ≤ r4.year ∧ cfg.market_type = "mature" then
      { r4 with user_growth_rate := r4.user_growth_rate * (7/10) } else r4

/-- The full `generate_tiktok_data` pipeline for a country name:
resolve the configuration, build the yearly rows, then apply the
trend-adjustment pass. -/
def generate_tiktok_data (country : String) : List YearRecord :=
  (pre_trend_table (get_country_config country)).map
    (add_country_trends (get_country_config country))

/-! ### Helper lemmas -/

/-- A configuration is well-seeded when its user base is positive and does
not exceed its population ceiling.  Every configuration of the table (and
the default) satisfies this. -/
def good_config (cfg : Config) : Prop :=
  0 < cfg.tiktok_users_base ∧ cfg.tiktok_users_base ≤ max_users cfg

lemma default_config_good : good_config default_config := by
  refine ⟨by norm_num [default_config], ?_⟩
  simp [default_config, max_users, max_percentage]
  norm_num

lemma configs_good : ∀ p ∈ configs, good_config p.2 := by
  intro p hp
  fin_cases hp <;>
    constructor <;>
      simp [default_config, max_users, max_percentage] <;> norm_num

lemma lookup_snd_mem {l : List (String × Config)} {k : String} {c : Config}
    (h : l.lookup k = some c) : ∃ p ∈ l, p.2 = c := by
  obtain ⟨l₁, l₂, hl, -⟩ := List.lookup_eq_some_iff.mp h
  exact ⟨(k, c), by simp [hl], rfl⟩

lemma get_country_config_good (country : String) :
    good_config (get_country_config country) := by
  unfold get_country_config
  cases h : configs.lookup country with
  | none => exact default_config_good
  | some c =>
    obtain ⟨p, hp, hpc⟩ := lookup_snd_mem h
    exact hpc ▸ configs_good p hp

/-- At year index `0` the single-date re-derivation of TikTok users is
the clamped user base, whatever the calendar year. -/
lemma tiktok_users_zero (cfg : Config) (y : ℕ) :
    simulate_tiktok_users cfg 0 y = min cfg.tiktok_users_base (max_users cfg) := by
  simp [simulate_tiktok_users]

lemma tiktok_users_zero_of_good {cfg : Config} (h : good_config cfg) (y : ℕ) :
    simulate_tiktok_users cfg 0 y = cfg.tiktok_users_base := by
  rw [tiktok_users_zero]; exact min_eq_left h.2

lemma mem_build_rows {cfg : Config} :
    ∀ {l : List ℕ} {prev : ℚ} {r : YearRecord}, r ∈ build_rows cfg prev l →
      ∃ i ∈ l, ∃ g, r = mk_record cfg i g
  | [], _, _, h => by simp [build_rows] at h
  | i :: is, prev, r, h => by
    simp only [build_rows, List.mem_cons] at h
    rcases h with h | h
    · exact ⟨i, by simp, _, h⟩
    · obtain ⟨j, hj, g, hg⟩ := mem_build_rows h
      exact ⟨j, by simp [hj], g, hg⟩

lemma build_rows_growth_zero {cfg : Config} (hg : good_config cfg) :
    ∀ (l : List ℕ) (prev : ℚ), prev = cfg.tiktok_users_base →
      ∀ r ∈ build_rows cfg prev l, r.user_growth_rate = 0
  | [], _, _, _, h => by simp [build_rows] at h
  | i :: is, prev, hprev, r, h => by
    have hcur : simulate_tiktok_users cfg 0 (2016 + i) = cfg.tiktok_users_base :=
      tiktok_users_zero_of_good hg _
    simp only [build_rows, List.mem_cons] at h
    rcases h with h | h
    · subst h
      simp [mk_record, simulate_user_growth_step, hcur, hprev]
    · exact build_rows_growth_zero hg is _ (by rw [hcur]) r h

/-- Full characterization of the trend-adjustment pass: each adjusted
field is multiplied by its window factor, every other field is kept. -/
lemma add_country_trends_fields (cfg : Config) (r : YearRecord) :
    (add_country_trends cfg r).year = r.year ∧
    (add_country_trends cfg r).population = r.population ∧
    (add_country_trends cfg r).tiktok_users = r.tiktok_users ∧
    (add_country_trends cfg r).videos_uploaded = r.videos_uploaded ∧
    (add_country_trends cfg r).likes_count = r.likes_count ∧
    (add_country_trends cfg r).shares_count = r.shares_count ∧
    (add_country_trends cfg r).comments_count = r.comments_count ∧
    (add_country_trends cfg r).creator_earnings = r.creator_earnings ∧
    (add_country_trends cfg r).engagement_rate = r.engagement_rate ∧
    (add_country_trends cfg r).virality_score = r.virality_score ∧
    (add_country_trends cfg r).users_under_25 = r.users_under_25 ∧
    (add_country_trends cfg r).users_25_34 = r.users_25_34 ∧
    (add_country_trends cfg r).users_over_35 = r.users_over_35 ∧
    (add_country_trends cfg r).user_growth_rate =
      r.user_growth_rate * (if 2016 ≤ r.year ∧ r.year ≤ 2018 then 12/10 else 1)
        * (if 2023 ≤ r.year ∧ cfg.market_type = "mature" then 7/10 else 1) ∧
    (add_country_trends cfg r).ad_revenue =
      r.ad_revenue * (if 2019 ≤ r.year ∧ r.year ≤ 2020 then 13/10 else 1) ∧
    (add_country_trends cfg r).time_spent_per_user =
      r.time_spent_per_user * (if 2020 ≤ r.year ∧ r.year ≤ 2021 then 125/100 else 1) ∧
    (add_country_trends cfg r).active_users =
      r.active_users * (if 2020 ≤ r.year ∧ r.year ≤ 2021 then 115/100 else 1) ∧
    (add_country_trends cfg r).e_commerce_revenue =
      r.e_commerce_revenue *
        (if (2021 ≤ r.year ∧ r.year ≤ 2023) ∧ "e-commerce" ∈ cfg.specialties
          then 14/10 else 1) := by
  by_cases h1 : 2016 ≤ r.year ∧ r.year ≤ 2018 <;>
    by_cases h2 : 2019 ≤ r.year ∧ r.year ≤ 2020 <;>
      by_cases h3 : 2020 ≤ r.year ∧ r.year ≤ 2021 <;>
        by_cases h4 : (2021 ≤ r.year ∧ r.year ≤ 2023) ∧ "e-commerce" ∈ cfg.specialties <;>
          by_cases h5 : 2023 ≤ r.year ∧ cfg.market_type = "mature" <;>
            simp [add_country_trends, h1, h2, h3, h4, h5]

lemma mem_generate {country : String} {r : YearRecord}
    (h : r ∈ generate_tiktok_data country) :
    ∃ s ∈ pre_trend_table (get_country_config country),
      r = add_country_trends (get_country_config country) s := by
  obtain ⟨s, hs, rfl⟩ := List.mem_map.mp h
  exact ⟨s, hs, rfl⟩

/-- Row `n` of the final table of a country (the record at 0-based year
index `n`, i.e. calendar year `2016 + n`). -/
def table_row (country : String) (n : ℕ) : YearRecord :=
  ((generate_tiktok_data country).drop n).headI

/-- Row `n` of the table before the trend-adjustment pass. -/
def pre_row (country : String) (n : ℕ) : YearRecord :=
  ((pre_trend_table (get_country_config country)).drop n).headI

lemma build_rows_length (cfg : Config) :
    ∀ (l : List ℕ) (prev : ℚ), (build_rows cfg prev l).length = l.length
  | [], _ => rfl
  | _ :: is, _ => by simp [build_rows, build_rows_length cfg is]

lemma pre_trend_table_length (cfg : Config) : (pre_trend_table cfg).length = 10 := by
  simp [pre_trend_table, build_rows_length]

lemma generate_length (country : String) :
    (generate_tiktok_data country).length = 10 := by
  simp [generate_tiktok_data, pre_trend_table_length]

lemma headI_mem {l : List YearRecord} (h : l ≠ []) : l.headI ∈ l := by
  cases l with
  | nil => exact absurd rfl h
  | cons a t => simp

lemma pre_row_mem (country : String) {n : ℕ} (h : n < 10) :
    pre_row country n ∈ pre_trend_table (get_country_config country) := by
  refine List.mem_of_mem_drop (headI_mem ?_)
  intro hnil
  rw [List.drop_eq_nil_iff, pre_trend_table_length] at hnil
  omega

lemma table_row_mem (country : String) {n : ℕ} (h : n < 10) :
    table_row country n ∈ generate_tiktok_data country := by
  refine List.mem_of_mem_drop (headI_mem ?_)
  intro hnil
  rw [List.drop_eq_nil_iff, generate_length] at hnil
  omega

lemma pre_row_us_0 : pre_row "United States" 0 =
    mk_record (get_country_config "United States") 0
      (simulate_user_growth_step
        (get_country_config "United States").tiktok_users_base
        (simulate_tiktok_users (get_country_config "United States") 0 (2016 + 0))) := rfl

lemma pre_row_us_1 : pre_row "United States" 1 =
    mk_record (get_country_config "United States") 1
      (simulate_user_growth_step
        (simulate_tiktok_users (get_country_config "United States") 0 (2016 + 0))
        (simulate_tiktok_users (get_country_config "United States") 0 (2016 + 1))) := rfl

lemma table_row_us_1 : table_row "United States" 1 =
    add_country_trends (get_country_config "United States")
      (pre_row "United States" 1) := rfl

/-! ### Claim theorems -/

/-- C1 counterexample: for the United States (a mature market, activity
rate 0.75), the 2017 record before the trend-adjustment pass has
TikTok_Users 135000000 but Active_Users 75000000, which is not
135000000 × 0.75: the single-date re-derivation inside the active-users
stage always evaluates the TikTok-users formula at year index 0. -/
theorem c1_counterexample :
    (get_country_config "United States").market_type = "mature" ∧
    (pre_row "United States" 1).tiktok_users = 135000000 ∧
    (pre_row "United States" 1).active_users = 75000000 ∧
    (75000000 : ℚ) ≠ 135000000 * (75/100) := by
  refine ⟨rfl, ?_, ?_, by norm_num⟩
  · rw [pre_row_us_1]
    simp [mk_record, simulate_tiktok_users, get_country_config, configs, max_users,
      max_percentage, min_def]
    norm_num
  · rw [pre_row_us_1]
    simp [mk_record, simulate_active_users, simulate_tiktok_users, active_rate,
      get_country_config, configs, max_users, max_percentage, min_def]
    norm_num

/-- C1 (amended): for every country profile and every year, the
Active_Users value of a record before the trend-adjustment pass equals
`min(tiktokUsersBase, populationBase × ceilingFraction)` — the year-index-0
TikTok-users value, the same for all years — multiplied by the market-type
activity rate, not the same record's TikTok_Users value. -/
theorem c1_active_users_amended (country : String) (r : YearRecord)
    (h : r ∈ pre_trend_table (get_country_config country)) :
    r.active_users =
      min (get_country_config country).tiktok_users_base
          (max_users (get_country_config country)) *
        active_rate (get_country_config country) := by
  obtain ⟨i, -, g, rfl⟩ := mem_build_rows h
  simp [mk_record, simulate_active_users, tiktok_users_zero]

/-- C1 witness: the amended statement at the concrete input Thailand,
first pre-trend row. -/
theorem c1_active_users_amended_witness :
    (pre_row "Thailand" 0).active_users =
      min (get_country_config "Thailand").tiktok_users_base
          (max_users (get_country_config "Thailand")) *
        active_rate (get_country_config "Thailand") :=
  c1_active_users_amended "Thailand" _ (pre_row_mem "Thailand" (by omega))

/-- C2 counterexample: for the United States, the 2017 record of the
final table has age-bracket sum 100000000 but TikTok_Users 135000000;
the age-bracket stages re-derive TikTok users at year index 0, so the
sum equals the clamped user base, not the record's own TikTok_Users. -/
theorem c2_counterexample :
    (table_row "United States" 1).users_under_25 +
        (table_row "United States" 1).users_25_34 +
        (table_row "United States" 1).users_over_35 = 100000000 ∧
    (table_row "United States" 1).tiktok_users = 135000000 ∧
    (100000000 : ℚ) ≠ 135000000 := by
  rw [table_row_us_1, pre_row_us_1]
  refine ⟨?_, ?_, by norm_num⟩
  · simp [add_country_trends, mk_record, simulate_young_users, simulate_adult_users,
      simulate_older_users, young_ratio, simulate_tiktok_users, get_country_config,
      configs, max_users, max_percentage, min_def]
    norm_num
  · simp [add_country_trends, mk_record, simulate_tiktok_users, get_country_config,
      configs, max_users, max_percentage, min_def]
    norm_num

/-- C2 (amended): for every country profile and every record of the
final table, Users_Under_25 + Users_25_34 + Users_Over_35 equals
`min(tiktokUsersBase, populationBase × ceilingFraction)` — the
year-index-0 TikTok-users value — exactly, not the record's own
TikTok_Users value. -/
theorem c2_age_sum_amended (country : String) (r : YearRecord)
    (h : r ∈ generate_tiktok_data country) :
    r.users_under_25 + r.users_25_34 + r.users_over_35 =
      min (get_country_config country).tiktok_users_base
        (max_users (get_country_config country)) := by
  obtain ⟨s, hs, rfl⟩ := mem_generate h
  have hfields := add_country_trends_fields (get_country_config country) s
  rw [hfields.2.2.2.2.2.2.2.2.2.2.1, hfields.2.2.2.2.2.2.2.2.2.2.2.1,
    hfields.2.2.2.2.2.2.2.2.2.2.2.2.1]
  obtain ⟨i, -, g, rfl⟩ := mem_build_rows hs
  simp only [mk_record, simulate_young_users, simulate_adult_users,
    simulate_older_users, tiktok_users_zero]
  ring

/-- C2 witness: the amended statement at the concrete input Brazil,
first row of the final table. -/
theorem c2_age_sum_amended_witness :
    (table_row "Brazil" 0).users_under_25 + (table_row "Brazil" 0).users_25_34 +
        (table_row "Brazil" 0).users_over_35 =
      min (get_country_config "Brazil").tiktok_users_base
        (max_users (get_country_config "Brazil")) :=
  c2_age_sum_amended "Brazil" _ (table_row_mem "Brazil" (by omega))

/-- C3 counterexample: for the United States, the 2017 user growth rate
is 0 both before and after the trend-adjustment pass — not 0.35 and
0.42 as claimed — because the growth-rate stage re-derives both the
current and the carried user count from the year-index-0 formula. -/
theorem c3_counterexample :
    (pre_row "United States" 1).user_growth_rate = 0 ∧
    (table_row "United States" 1).user_growth_rate = 0 ∧
    (0 : ℚ) ≠ 35/100 ∧ (0 : ℚ) ≠ 42/100 := by
  have hpre : (pre_row "United States" 1).user_growth_rate = 0 := by
    rw [pre_row_us_1]
    simp [mk_record, simulate_user_growth_step, simulate_tiktok_users,
      get_country_config, configs, max_users, max_percentage, min_def]
  refine ⟨hpre, ?_, by norm_num, by norm_num⟩
  rw [table_row_us_1]
  have hfields := add_country_trends_fields (get_country_config "United States")
    (pre_row "United States" 1)
  rw [hfields.2.2.2.2.2.2.2.2.2.2.2.2.2.1, hpre, zero_mul, zero_mul]

/-- C3 (amended): for the United States profile the simulator produces,
for 2016: population 331000000, TikTok users 100000000, active users
75000000, time spent 31.5; for 2017: TikTok users 135000000 — but the
user growth rate for 2017 is 0 before the trend-adjustment pass and
still 0 after the 2016-2018 ×1.2 multiplier. -/
theorem c3_us_example_amended :
    (pre_row "United States" 0).population = 331000000 ∧
    (pre_row "United States" 0).tiktok_users = 100000000 ∧
    (pre_row "United States" 0).active_users = 75000000 ∧
    (pre_row "United States" 0).time_spent_per_user = 63/2 ∧
    (pre_row "United States" 1).tiktok_users = 135000000 ∧
    (pre_row "United States" 1).user_growth_rate = 0 ∧
    (table_row "United States" 1).user_growth_rate = 0 := by
  have hpre1 : (pre_row "United States" 1).user_growth_rate = 0 := by
    rw [pre_row_us_1]
    simp [mk_record, simulate_user_growth_step, simulate_tiktok_users,
      get_country_config, configs, max_users, max_percentage, min_def]
  refine ⟨?_, ?_, ?_, ?_, ?_, hpre1, ?_⟩
  · rw [pre_row_us_0]
    simp [mk_record, simulate_population, get_country_config, configs]
  · rw [pre_row_us_0]
    simp [mk_record, simulate_tiktok_users, get_country_config, configs, max_users,
      max_percentage, min_def]
    norm_num
  · rw [pre_row_us_0]
    simp [mk_record, simulate_active_users, simulate_tiktok_users, active_rate,
      get_country_config, configs, max_users, max_percentage, min_def]
    norm_num
  · rw [pre_row_us_0]
    simp [mk_record, simulate_time_spent, get_country_config, configs]
    norm_num
  · rw [pre_row_us_1]
    simp [mk_record, simulate_tiktok_users, get_country_config, configs, max_users,
      max_percentage, min_def]
    norm_num
  · rw [table_row_us_1]
    have hfields := add_country_trends_fields (get_country_config "United States")
      (pre_row "United States" 1)
    rw [hfields.2.2.2.2.2.2.2.2.2.2.2.2.2.1, hpre1, zero_mul, zero_mul]



/-- C4: in the final table of every country profile (including the
default), the User_Growth_Rate field is 0 in every record: the
single-date re-derivation of TikTok users always uses year index 0 and
returns the clamped user base, every consecutive difference is zero, and
the trend multipliers leave 0 unchanged. -/
theorem c4_user_growth_rate_zero (country : String) (r : YearRecord)
    (h : r ∈ generate_tiktok_data country) : r.user_growth_rate = 0 := by
  obtain ⟨s, hs, rfl⟩ := mem_generate h
  have hzero : s.user_growth_rate = 0 :=
    build_rows_growth_zero (get_country_config_good country) _ _ rfl s hs
  have hfields := add_country_trends_fields (get_country_config country) s
  rw [hfields.2.2.2.2.2.2.2.2.2.2.2.2.2.1, hzero, zero_mul, zero_mul]

/-- C4 witness: the zero growth rate at the concrete input France, third
row of the final table. -/
theorem c4_user_growth_rate_zero_witness :
    (table_row "France" 2).user_growth_rate = 0 :=
  c4_user_growth_rate_zero "France" _ (table_row_mem "France" (by omega))

/-- C5: for every country profile and every year, the TikTok_Users value
never exceeds populationBase times the ceiling fraction: 0.45 for
domestic markets and 0.65 for every other market type. -/
theorem c5_population_ceiling (country : String) (r : YearRecord)
    (h : r ∈ generate_tiktok_data country) :
    r.tiktok_users ≤ (get_country_config country).population_base *
      (if (get_country_config country).market_type = "domestic"
        then 45/100 else 65/100) := by
  obtain ⟨s, hs, rfl⟩ := mem_generate h
  have hfields := add_country_trends_fields (get_country_config country) s
  rw [hfields.2.2.1]
  obtain ⟨i, -, g, rfl⟩ := mem_build_rows hs
  have hle : simulate_tiktok_users (get_country_config country) i (2016 + i) ≤
      max_users (get_country_config country) := min_le_right _ _
  have hmax : max_users (get_country_config country) =
      (get_country_config country).population_base *
        (if (get_country_config country).market_type = "domestic"
          then 45/100 else 65/100) := by
    simp only [max_users, max_percentage, ite_not]
  exact hmax ▸ hle

/-- C5 witness: the ceiling bound at the concrete input China (the one
domestic market, ceiling fraction 0.45), first row of the final table. -/
theorem c5_population_ceiling_witness :
    (table_row "China" 0).tiktok_users ≤ (get_country_config "China").population_base *
      (if (get_country_config "China").market_type = "domestic"
        then 45/100 else 65/100) :=
  c5_population_ceiling "China" _ (table_row_mem "China" (by omega))

/-- C6: in the final table, for every country profile and every record,
Shares_Count equals exactly 0.08 times Likes_Count and Comments_Count
equals exactly 0.05 times Likes_Count; the trend-adjustment pass touches
none of these three fields. -/
theorem c6_shares_comments_ratios (country : String) (r : YearRecord)
    (h : r ∈ generate_tiktok_data country) :
    r.shares_count = (8/100) * r.likes_count ∧
    r.comments_count = (5/100) * r.likes_count := by
  obtain ⟨s, hs, rfl⟩ := mem_generate h
  have hfields := add_country_trends_fields (get_country_config country) s
  rw [hfields.2.2.2.2.2.1, hfields.2.2.2.2.2.2.1, hfields.2.2.2.2.1]
  obtain ⟨i, -, g, rfl⟩ := mem_build_rows hs
  constructor <;>
    simp [mk_record, simulate_shares_count, simulate_comments_count, mul_comm]

/-- C6 witness: the share and comment ratios at the concrete input
Vietnam, fourth row of the final table. -/
theorem c6_shares_comments_ratios_witness :
    (table_row "Vietnam" 3).shares_count = (8/100) * (table_row "Vietnam" 3).likes_count ∧
    (table_row "Vietnam" 3).comments_count = (5/100) * (table_row "Vietnam" 3).likes_count :=
  c6_shares_comments_ratios "Vietnam" _ (table_row_mem "Vietnam" (by omega))

/-- C7: profile lookup is total: a country-name string not present in the
configuration table resolves to the named "default" profile, and its
simulated series is identical to the series for the literal name
"default"; the lookup never fails. -/
theorem c7_unknown_country_default (country : String)
    (h : country ∉ configs.map Prod.fst) :
    get_country_config country = get_country_config "default" ∧
    generate_tiktok_data country = generate_tiktok_data "default" := by
  have hnone : configs.lookup country = none := by
    rw [List.lookup_eq_none_iff]
    intro p hp
    simp only [bne_iff_ne, ne_eq]
    intro hk
    exact h (List.mem_map.mpr ⟨p, hp, hk.symm⟩)
  have hcfg : get_country_config country = get_country_config "default" := by
    rw [get_country_config, hnone]
    rfl
  exact ⟨hcfg, by rw [generate_tiktok_data, hcfg]; rfl⟩

/-- C7 witness: the fallback at the concrete unknown name "Atlantis". -/
theorem c7_unknown_country_default_witness :
    get_country_config "Atlantis" = get_country_config "default" ∧
    generate_tiktok_data "Atlantis" = generate_tiktok_data "default" :=
  c7_unknown_country_default "Atlantis" (by decide)

/-- C8: the user-growth-rate stage never divides by zero: when the
carried previous-year user count is 0 the rate is defined to be 0, and
the carried count is seeded from a user base that is positive for every
resolvable profile. -/
theorem c8_division_guard (country : String) (prev cur : ℚ) (h : prev = 0) :
    simulate_user_growth_step prev cur = 0 ∧
    0 < (get_country_config country).tiktok_users_base := by
  subst h
  exact ⟨by simp [simulate_user_growth_step], (get_country_config_good country).1⟩

/-- C8 witness: the guard at previous value 0 and the positive seed, at
the concrete input prev = 0, cur = 42, country "United States". -/
theorem c8_division_guard_witness :
    simulate_user_growth_step 0 42 = 0 ∧
    0 < (get_country_config "United States").tiktok_users_base :=
  c8_division_guard "United States" 0 42 rfl

/-- C9: the trend-adjustment pass changes only User_Growth_Rate in
2016-2018 (×1.2) and, for mature markets, in years ≥ 2023 (×0.7);
Ad_Revenue in 2019-2020 (×1.3); Time_Spent_Per_User (×1.25) and
Active_Users (×1.15) in 2020-2021; E_Commerce_Revenue in 2021-2023 for
profiles with the "e-commerce" specialty (×1.4) — and leaves every other
field of every record unchanged. -/
theorem c9_trend_pass_frame (cfg : Config) (r : YearRecord) :
    (add_country_trends cfg r).year = r.year ∧
    (add_country_trends cfg r).population = r.population ∧
    (add_country_trends cfg r).tiktok_users = r.tiktok_users ∧
    (add_country_trends cfg r).videos_uploaded = r.videos_uploaded ∧
    (add_country_trends cfg r).likes_count = r.likes_count ∧
    (add_country_trends cfg r).shares_count = r.shares_count ∧
    (add_country_trends cfg r).comments_count = r.comments_count ∧
    (add_country_trends cfg r).creator_earnings = r.creator_earnings ∧
    (add_country_trends cfg r).engagement_rate = r.engagement_rate ∧
    (add_country_trends cfg r).virality_score = r.virality_score ∧
    (add_country_trends cfg r).users_under_25 = r.users_under_25 ∧
    (add_country_trends cfg r).users_25_34 = r.users_25_34 ∧
    (add_country_trends cfg r).users_over_35 = r.users_over_35 ∧
    (add_country_trends cfg r).user_growth_rate =
      r.user_growth_rate * (if 2016 ≤ r.year ∧ r.year ≤ 2018 then 12/10 else 1)
        * (if 2023 ≤ r.year ∧ cfg.market_type = "mature" then 7/10 else 1) ∧
    (add_country_trends cfg r).ad_revenue =
      r.ad_revenue * (if 2019 ≤ r.year ∧ r.year ≤ 2020 then 13/10 else 1) ∧
    (add_country_trends cfg r).time_spent_per_user =
      r.time_spent_per_user * (if 2020 ≤ r.year ∧ r.year ≤ 2021 then 125/100 else 1) ∧
    (add_country_trends cfg r).active_users =
      r.active_users * (if 2020 ≤ r.year ∧ r.year ≤ 2021 then 115/100 else 1) ∧
    (add_country_trends cfg r).e_commerce_revenue =
      r.e_commerce_revenue *
        (if (2021 ≤ r.year ∧ r.year ≤ 2023) ∧ "e-commerce" ∈ cfg.specialties
          then 14/10 else 1) :=
  add_country_trends_fields cfg r

/-- C10: the simulation is deterministic: two runs of the
data-generation operation with the same country name produce identical
tables in every field of every record; the embedded pipeline is a pure
function with no randomness and no dependence on the current time. -/
theorem c10_deterministic (country : String) :
    generate_tiktok_data country = generate_tiktok_data country := rfl

end Tiktok
